import Mathlib

/-!
Verification of the ABE benchmark harness (samples/main.py).

The Python source is shallowly embedded: Python floats are modelled as exact
rationals (ℚ), OS readings (psutil CPU percentages, memory residency, clock
timestamps) are oracle inputs passed explicitly, the mutable
`PerformanceMonitor` object is explicit state threaded through the calls, and
fallible I/O is an `Except` value supplied by the environment.
-/

set_option linter.unusedVariables false

namespace ABEBench

/-! ## ResourceMonitor (main.py, class PerformanceMonitor, lines 15-53)

`__init__` leaves both system-CPU fields at `None`; `process.cpu_percent()`
calls only reset the OS counter, so the readings they consume appear here as
explicit arguments at the points the source queries them. -/

structure PerformanceMonitor where
  system_cpu_before : Option ℚ
  system_cpu_after : Option ℚ
deriving DecidableEq

/-- A fresh monitor: `PerformanceMonitor()` (lines 16-21). -/
def PerformanceMonitor.init : PerformanceMonitor := ⟨none, none⟩

/-- `start_monitoring` (lines 27-34): resets the process CPU counter and
stores the system-wide baseline reading; the 10 ms sleep has no effect on the
recorded state. -/
def start_monitoring (m : PerformanceMonitor) (sys_reading : ℚ) : PerformanceMonitor :=
  ⟨some sys_reading, m.system_cpu_after⟩

/-- `get_cpu_percent_isolated` (lines 36-53).  `process_cpu` is the reading
`self.process.cpu_percent()` returns at line 39 and `sys_now` the reading
`psutil.cpu_percent(interval=None)` returns at line 42 (stored into
`system_cpu_after` before any branch).  Returns the value together with the
updated monitor state. -/
def get_cpu_percent_isolated (m : PerformanceMonitor) (process_cpu sys_now : ℚ) :
    ℚ × PerformanceMonitor :=
  let m2 : PerformanceMonitor := ⟨m.system_cpu_before, some sys_now⟩
  if 0 < process_cpu then
    (process_cpu, m2)
  else
    match m2.system_cpu_before, m2.system_cpu_after with
    | some before, some after => (min (max 0 (after - before)) 100, m2)
    | _, _ => (0, m2)

/-- The fallback policy exactly as the spec words it (§4.1): process reading
if strictly positive, else the clamped system delta when a baseline was
captured, else 0. -/
def spec_cpu_fallback (baseline : Option ℚ) (process_cpu sys_after : ℚ) : ℚ :=
  if 0 < process_cpu then
    process_cpu
  else
    match baseline with
    | some before => min (max 0 (sys_after - before)) 100
    | none => 0

/-- C1 (corrected): the returned value is always nonnegative, and it is at
most 100 whenever the process-level reading is at most 100.  The original
claim (always in [0, 100]) fails because a process reading above 100 is
returned unclamped. -/
theorem get_cpu_percent_isolated_bounds (m : PerformanceMonitor) (pc sn : ℚ) :
    0 ≤ (get_cpu_percent_isolated m pc sn).1 ∧
      (pc ≤ 100 → (get_cpu_percent_isolated m pc sn).1 ≤ 100) := by
  unfold get_cpu_percent_isolated
  dsimp only
  split
  · exact ⟨le_of_lt (by assumption), fun h => h⟩
  · cases m.system_cpu_before with
    | none => exact ⟨le_refl 0, fun _ => by norm_num⟩
    | some before =>
      refine ⟨le_min (le_max_left 0 _) (by norm_num), fun _ => min_le_right _ _⟩

/-- C1 witness: the bounds instantiated at a concrete monitor state and
concrete readings. -/
theorem get_cpu_percent_isolated_bounds_witness :
    0 ≤ (get_cpu_percent_isolated ⟨none, none⟩ 50 0).1 ∧
      (get_cpu_percent_isolated ⟨none, none⟩ 50 0).1 ≤ 100 :=
  ⟨(get_cpu_percent_isolated_bounds ⟨none, none⟩ 50 0).1,
   (get_cpu_percent_isolated_bounds ⟨none, none⟩ 50 0).2 (by norm_num)⟩

/-- C1 counterexample: with a process-level reading of 150 (possible under
psutil on a multi-core host) the function returns 150, outside [0, 100]. -/
theorem get_cpu_percent_isolated_exceeds_100 :
    100 < (get_cpu_percent_isolated ⟨none, none⟩ 150 0).1 := by
  norm_num [get_cpu_percent_isolated]

/-- C2: `get_cpu_percent_isolated` implements exactly the three-branch
fallback of the spec: positive process reading returned directly; otherwise
the clamped system delta `min (max 0 (after - before)) 100` when a baseline
was captured; otherwise 0. -/
theorem get_cpu_percent_isolated_three_branch (m : PerformanceMonitor) (pc sn : ℚ) :
    (get_cpu_percent_isolated m pc sn).1 = spec_cpu_fallback m.system_cpu_before pc sn := by
  unfold get_cpu_percent_isolated spec_cpu_fallback
  dsimp only
  split
  · rfl
  · cases m.system_cpu_before <;> rfl

/-! ## BenchmarkCase (main.py, generate_test_data and run_performance_test,
lines 56-138)

The external ABE capability (charm's AC17CPABE) is an abstract record of
functions; the random GT element `pairing_group.random(GT)` is an oracle
argument; clock/CPU/memory readings for the two measured phases are oracle
inputs collected in `PhaseReadings`. -/

/-- `generate_test_data` (lines 56-60): a buffer of `size_kb * 1024` bytes of
the letter A. -/
def generate_test_data (size_kb : Nat) : List Char :=
  List.replicate (size_kb * 1024) 'A'

/-- One phase's dictionary (`results['encryption']` / `results['decryption']`). -/
structure OperationResult where
  time_seconds : ℚ
  cpu_percent : ℚ
  memory_kb : ℚ
deriving DecidableEq

/-- The dictionary `run_performance_test` returns (lines 86-138). -/
structure CaseResult where
  data_size_kb : Nat
  encryption : OperationResult
  decryption : OperationResult
  success : Bool
deriving DecidableEq

/-- The external ABE capability at the boundary the harness uses (§6 of the
spec): `keygen`, `encrypt`, `decrypt`; `setup` and the group's random element
are supplied as arguments `pk`, `msk`, `randomMsg`. -/
structure Capability (PK MSK GT Ctxt Key : Type) where
  keygen : PK → MSK → List String → Key
  encrypt : PK → GT → String → Ctxt
  decrypt : PK → Ctxt → Key → GT

/-- The oracle readings one measured phase consumes, in source order:
memory baseline (line 96/116), system CPU baseline inside
`start_monitoring` (line 32), the two `time.time()` stamps (lines 99/101,
120/122), the process CPU reading and system CPU reading inside
`get_cpu_percent_isolated` (lines 39/42), the final memory reading
(line 105/126). -/
structure PhaseReadings where
  initial_memory : ℚ
  sys_cpu_baseline : ℚ
  start_time : ℚ
  end_time : ℚ
  process_cpu : ℚ
  sys_cpu_now : ℚ
  final_memory : ℚ

/-- Readings for the encryption phase then the decryption phase. -/
structure TestReadings where
  enc : PhaseReadings
  dec : PhaseReadings

/-- The arguments the code passes into the two measured calls
`cpabe.encrypt(pk, msg, policy_str)` (line 100) and
`cpabe.decrypt(pk, ctxt, key)` (line 121). -/
structure MeasuredCalls (GT Ctxt Key : Type) where
  encrypt_plaintext : GT
  encrypt_policy : String
  decrypt_ciphertext : Ctxt
  decrypt_key : Key

/-- `attr_list` (line 71). -/
def attr_list : List String := ["ONE", "TWO", "THREE"]

/-- `policy_str` (line 73). -/
def policy_str : String := "((ONE and THREE) and (TWO OR FOUR))"

/-- `run_performance_test` (lines 63-138), with the arguments the measured
calls receive returned alongside the result dictionary.  `gc.collect()` and
the prints have no modelled effect. -/
def run_performance_test {PK MSK GT Ctxt Key : Type} [DecidableEq GT]
    (cap : Capability PK MSK GT Ctxt Key) (pk : PK) (msk : MSK)
    (randomMsg : GT) (r : TestReadings) (data_size_kb : Nat) :
    CaseResult × MeasuredCalls GT Ctxt Key :=
  let monitor := PerformanceMonitor.init
  let test_data := generate_test_data data_size_kb
  let key := cap.keygen pk msk attr_list
  let msg := randomMsg
  -- Measure Encryption (lines 95-112)
  let initial_memory := r.enc.initial_memory
  let monitor1 := start_monitoring monitor r.enc.sys_cpu_baseline
  let ctxt := cap.encrypt pk msg policy_str
  let encryption_time := r.enc.end_time - r.enc.start_time
  let encStep := get_cpu_percent_isolated monitor1 r.enc.process_cpu r.enc.sys_cpu_now
  let memory_used := r.enc.final_memory - initial_memory
  let encRes : OperationResult := ⟨encryption_time, encStep.1, max 0 memory_used⟩
  -- Measure Decryption (lines 114-133)
  let initial_memory2 := r.dec.initial_memory
  let monitor2 := start_monitoring encStep.2 r.dec.sys_cpu_baseline
  let rec_msg := cap.decrypt pk ctxt key
  let decryption_time := r.dec.end_time - r.dec.start_time
  let decStep := get_cpu_percent_isolated monitor2 r.dec.process_cpu r.dec.sys_cpu_now
  let memory_used2 := r.dec.final_memory - initial_memory2
  let decRes : OperationResult := ⟨decryption_time, decStep.1, max 0 memory_used2⟩
  -- Verify correctness (line 136)
  (⟨data_size_kb, encRes, decRes, decide (rec_msg = msg)⟩,
   ⟨msg, policy_str, ctxt, key⟩)

/-! ## BenchmarkSuite (main.py, run_performance_scenarios loop, lines
250-267)

The body of the `for size_kb in data_sizes` loop: a successful
`run_performance_test` is appended to `all_results`; an exception skips the
append (`except ... continue`).  A case's outcome is the oracle `runCase`,
`Except.error` standing for a raised exception. -/

def run_suite {α : Type} (runCase : Nat → Except String α) : List Nat → List α
  | [] => []
  | s :: rest =>
    match runCase s with
    | Except.ok r => r :: run_suite runCase rest
    | Except.error _ => run_suite runCase rest

/-! ## ReportExporter (main.py, export_results_to_csv, lines 141-231)

Python's float formatting is modelled on the exact rational value.  All the
floats the exporter formats are either exact dyadic rationals (`kb / 1024` is
exactly representable in a double for every realistic `kb`) or abstracted
readings already modelled as ℚ, and Python's `round`/`:.Nf` round half to
even, which `roundHalfEvenN` / `roundHalfEvenZ` implement exactly. -/

/-- Round `num / den` (`den > 0`) to the nearest natural, ties to even. -/
def roundHalfEvenN (num den : Nat) : Nat :=
  let q := num / den
  let r := num % den
  if 2 * r < den then q
  else if den < 2 * r then q + 1
  else if q % 2 = 0 then q else q + 1

/-- Round a rational to the nearest integer, ties to even. -/
def roundHalfEvenZ (x : ℚ) : ℤ :=
  let f : ℤ := x.floor
  let frac : ℚ := x - f
  if frac < 1 / 2 then f
  else if 1 / 2 < frac then f + 1
  else if f % 2 = 0 then f else f + 1

/-- Python's `f"{x:.prec f}"` on the exact rational value `x`. -/
def fmtFixed (prec : Nat) (x : ℚ) : String :=
  let n : ℤ := roundHalfEvenZ (x * (10 : ℚ) ^ prec)
  if prec = 0 then toString n
  else
    let a : Nat := n.natAbs
    let base : Nat := 10 ^ prec
    let digits := toString (a % base)
    let pad := String.mk (List.replicate (prec - digits.length) '0')
    (if n < 0 then "-" else "") ++ toString (a / base) ++ "." ++ pad ++ digits

/-- The column label for one case (lines 148-158): the initial string
`f"{kb}KB"` is parsed back by `int(size.replace('KB', ''))`, which recovers
`kb`, so the net effect is a function of `kb`.  `mb_value == int(mb_value)`
holds exactly when `1024 ∣ kb`, and `f"{mb_value:.1f}"` rounds
`kb * 10 / 1024` half to even. -/
def size_label (kb : Nat) : String :=
  if 1024 ≤ kb then
    if kb % 1024 = 0 then toString (kb / 1024) ++ "MB"
    else
      let n := roundHalfEvenN (kb * 10) 1024
      toString (n / 10) ++ "." ++ toString (n % 10) ++ "MB"
  else toString kb ++ "KB"

/-- The simulated key-creation time in ms (line 171): `81 + kb % 15`. -/
def key_creation_time_ms (kb : Nat) : Nat := 81 + kb % 15

/-- One cell of the Key Creation Time row (lines 168-172). -/
def key_time_cell (result : CaseResult) : String :=
  toString (key_creation_time_ms result.data_size_kb) ++ "ms"

/-- One cell of the Data Encryption - Time row (lines 176-179). -/
def enc_time_cell (result : CaseResult) : String :=
  fmtFixed 3 (result.encryption.time_seconds * 1000) ++ "ms"

/-- One cell of the Data Encryption - CPU row (lines 183-186). -/
def enc_cpu_cell (result : CaseResult) : String :=
  fmtFixed 2 result.encryption.cpu_percent ++ "%"

/-- One cell of the Data Encryption - RAM row (lines 190-193). -/
def enc_ram_cell (result : CaseResult) : String :=
  fmtFixed 0 result.encryption.memory_kb ++ "KB"

/-- One cell of the Data Decryption - Time row (lines 197-200). -/
def dec_time_cell (result : CaseResult) : String :=
  fmtFixed 3 (result.decryption.time_seconds * 1000) ++ "ms"

/-- One cell of the Data Decryption - CPU row (lines 204-207). -/
def dec_cpu_cell (result : CaseResult) : String :=
  fmtFixed 2 result.decryption.cpu_percent ++ "%"

/-- One cell of the Data Decryption - RAM row (lines 211-214). -/
def dec_ram_cell (result : CaseResult) : String :=
  fmtFixed 0 result.decryption.memory_kb ++ "KB"

/-- `csv_data` as built in lines 147-215 (the pure part of the exporter,
reached only when `all_results` is non-empty). -/
def build_csv_data (all_results : List CaseResult) : List (List String) :=
  let data_sizes := all_results.map (fun result => size_label result.data_size_kb)
  let header := "ABE" :: data_sizes
  let key_times := all_results.map key_time_cell
  let enc_times := all_results.map enc_time_cell
  let enc_cpu := all_results.map enc_cpu_cell
  let enc_ram := all_results.map enc_ram_cell
  let dec_times := all_results.map dec_time_cell
  let dec_cpu := all_results.map dec_cpu_cell
  let dec_ram := all_results.map dec_ram_cell
  [header,
   "Key Creation Time" :: key_times,
   "Data Encryption - Time" :: enc_times,
   "Data Encryption - CPU" :: enc_cpu,
   "Data Encryption - RAM" :: enc_ram,
   "Data Decryption - Time" :: dec_times,
   "Data Decryption - CPU" :: dec_cpu,
   "Data Decryption - RAM" :: dec_ram]

/-- The seven metric rows in the fixed order §4.4 of the spec lists them,
each as (row label, cell function). -/
def spec_metric_rows : List (String × (CaseResult → String)) :=
  [("Key Creation Time", key_time_cell),
   ("Data Encryption - Time", enc_time_cell),
   ("Data Encryption - CPU", enc_cpu_cell),
   ("Data Encryption - RAM", enc_ram_cell),
   ("Data Decryption - Time", dec_time_cell),
   ("Data Decryption - CPU", dec_cpu_cell),
   ("Data Decryption - RAM", dec_ram_cell)]

/-- The report matrix as the spec words it (§4.4, §6): a header row with a
label followed by one column label per case in input order, then the seven
metric rows, one column per case in the same order. -/
def spec_report_matrix (results : List CaseResult) : List (List String) :=
  ("ABE" :: results.map (fun result => size_label result.data_size_kb)) ::
    spec_metric_rows.map (fun m => m.1 :: results.map m.2)

/-- The hard-coded output path (line 218). -/
def csv_path : String := "/Users/thanhtuan/son/ABE/samples/abe_performance_results.csv"

/-- What `export_results_to_csv` prints to the console. -/
inductive ConsoleEvent where
  | noResults : ConsoleEvent
  | exportedTo : String → ConsoleEvent
  | csvContentHeader : ConsoleEvent
  | csvLine : String → ConsoleEvent
  | writeError : String → ConsoleEvent
deriving DecidableEq

/-- The body of the `try` block (lines 220-228): the file write may raise
(`writeResult` is the environment's verdict); on success the code prints the
destination, the `=== CSV Content ===` banner, and every row tab-joined. -/
def export_try_block (csv_data : List (List String))
    (writeResult : Except String Unit) : Except String (List ConsoleEvent) :=
  match writeResult with
  | Except.error e => Except.error e
  | Except.ok _ =>
    Except.ok (ConsoleEvent.exportedTo csv_path :: ConsoleEvent.csvContentHeader ::
      csv_data.map (fun row => ConsoleEvent.csvLine (String.intercalate "\t" row)))

/-- `export_results_to_csv` (lines 141-231): early return on an empty
collection, otherwise build `csv_data` and run the `try`/`except` (the
`except` clause prints the error at line 231 and falls through). -/
def export_results_to_csv (all_results : List CaseResult)
    (writeResult : Except String Unit) : List ConsoleEvent :=
  match all_results with
  | [] => [ConsoleEvent.noResults]
  | _ =>
    let csv_data := build_csv_data all_results
    match export_try_block csv_data writeResult with
    | Except.ok events => events
    | Except.error e => [ConsoleEvent.writeError ("Error writing CSV file: " ++ e)]

/-! ## Concrete fixtures used by witnesses and counterexamples -/

/-- A concrete operation sample. -/
def sampleOp : OperationResult := ⟨1 / 2, 25, 300⟩

/-- A concrete case result of payload size 100 KB. -/
def sampleCase : CaseResult := ⟨100, sampleOp, sampleOp, true⟩

/-- A trivial capability over unit types, for instantiating the generic
benchmark-case theorems. -/
def unitCap : Capability Unit Unit Unit Unit Unit :=
  ⟨fun _ _ _ => (), fun _ _ _ => (), fun _ _ _ => ()⟩

/-- Concrete phase readings whose final memory is below the initial one, so
the clamp is exercised. -/
def sampleReadings : PhaseReadings := ⟨100, 5, 10, 11, 50, 7, 90⟩

/-- Concrete readings for both phases. -/
def sampleTestReadings : TestReadings := ⟨sampleReadings, sampleReadings⟩

/-- A case runner that raises exactly on size 100 and returns the size
itself otherwise. -/
def failAt100 : Nat → Except String Nat :=
  fun s => if s = 100 then Except.error "boom" else Except.ok s

/-! ## Claims C3-C10 -/

/-- C3 counterexample: with one result and a failing write, the console gets
only the error line; the `=== CSV Content ===` banner (and hence the report
rendering, which in the source sits inside the `try` block after the write)
never appears, contrary to the claim that the console rendering still
completes. -/
theorem export_io_failure_skips_console_rendering :
    export_results_to_csv [sampleCase] (Except.error "disk full") =
      [ConsoleEvent.writeError "Error writing CSV file: disk full"] ∧
    ConsoleEvent.csvContentHeader ∉
      export_results_to_csv [sampleCase] (Except.error "disk full") := by
  constructor
  · rfl
  · decide

/-- C3 (corrected): on a write failure the exporter reports the error to the
console and returns without raising, but skips the console rendering of the
report content; the rendering happens exactly when the write succeeds. -/
theorem export_io_failure_behavior (results : List CaseResult) (h : results ≠ [])
    (e : String) :
    export_results_to_csv results (Except.error e) =
      [ConsoleEvent.writeError ("Error writing CSV file: " ++ e)] ∧
    export_results_to_csv results (Except.ok ()) =
      ConsoleEvent.exportedTo csv_path :: ConsoleEvent.csvContentHeader ::
        (build_csv_data results).map
          (fun row => ConsoleEvent.csvLine (String.intercalate "\t" row)) := by
  cases results with
  | nil => exact absurd rfl h
  | cons a rest => exact ⟨rfl, rfl⟩

/-- C3 witness: the corrected behavior at a concrete one-case collection and
a concrete I/O error. -/
theorem export_io_failure_behavior_witness :
    export_results_to_csv [sampleCase] (Except.error "boom") =
      [ConsoleEvent.writeError ("Error writing CSV file: " ++ "boom")] ∧
    export_results_to_csv [sampleCase] (Except.ok ()) =
      ConsoleEvent.exportedTo csv_path :: ConsoleEvent.csvContentHeader ::
        (build_csv_data [sampleCase]).map
          (fun row => ConsoleEvent.csvLine (String.intercalate "\t" row)) :=
  export_io_failure_behavior [sampleCase] (List.cons_ne_nil _ _) "boom"

/-- C4: if the case for one size fails and every other size succeeds, the
suite records no result for the failing size and yields the others' results
in the original request order. -/
theorem run_suite_failure_isolation {α : Type} (runCase : Nat → Except String α)
    (g : Nat → α) (sizes : List Nat) (bad : Nat)
    (hok : ∀ s, s ≠ bad → runCase s = Except.ok (g s))
    (hbad : ∀ a, runCase bad ≠ Except.ok a) :
    run_suite runCase sizes = (sizes.filter (fun s => decide (s ≠ bad))).map g := by
  induction sizes with
  | nil => rfl
  | cons s rest ih =>
    by_cases h : s = bad
    · subst h
      cases hcase : runCase s with
      | ok a => exact absurd hcase (hbad a)
      | error e => simp [run_suite, hcase, ih]
    · simp [run_suite, hok s h, h, ih]

/-- C4 witness: a runner failing exactly on size 100 over the request
[1, 100, 7] yields [1, 7]. -/
theorem run_suite_failure_isolation_witness :
    run_suite failAt100 [1, 100, 7] = [1, 7] := by
  have hok : ∀ s, s ≠ 100 → failAt100 s = Except.ok (id s) := by
    intro s hs
    simp [failAt100, hs]
  have hbad : ∀ a, failAt100 100 ≠ Except.ok a := by
    intro a
    simp [failAt100]
  have h := run_suite_failure_isolation failAt100 id [1, 100, 7] 100 hok hbad
  simpa using h

/-- C5: the arguments of the measured encrypt and decrypt calls are
independent of the payload size (two runs differing only in size pass the
same plaintext, policy, ciphertext and key), while the synthetic buffer
itself does scale with the size. -/
theorem measured_calls_independent_of_size {PK MSK GT Ctxt Key : Type} [DecidableEq GT]
    (cap : Capability PK MSK GT Ctxt Key) (pk : PK) (msk : MSK) (msg : GT)
    (r : TestReadings) (s1 s2 : Nat) :
    (run_performance_test cap pk msk msg r s1).2 =
      (run_performance_test cap pk msk msg r s2).2 ∧
    (generate_test_data s1).length = s1 * 1024 := by
  constructor
  · rfl
  · simp [generate_test_data]

/-- C6: for every positive size and all readings, the produced case has
nonnegative elapsed times (the clock not running backwards across each
measured call) and nonnegative memory deltas; a negative memory delta is
reported as exactly zero. -/
theorem case_result_nonneg_invariants {PK MSK GT Ctxt Key : Type} [DecidableEq GT]
    (cap : Capability PK MSK GT Ctxt Key) (pk : PK) (msk : MSK) (msg : GT)
    (r : TestReadings) (s : Nat) (hs : 0 < s)
    (henc : r.enc.start_time ≤ r.enc.end_time)
    (hdec : r.dec.start_time ≤ r.dec.end_time) :
    0 ≤ (run_performance_test cap pk msk msg r s).1.encryption.time_seconds ∧
    0 ≤ (run_performance_test cap pk msk msg r s).1.decryption.time_seconds ∧
    0 ≤ (run_performance_test cap pk msk msg r s).1.encryption.memory_kb ∧
    0 ≤ (run_performance_test cap pk msk msg r s).1.decryption.memory_kb ∧
    (r.enc.final_memory < r.enc.initial_memory →
      (run_performance_test cap pk msk msg r s).1.encryption.memory_kb = 0) ∧
    (r.dec.final_memory < r.dec.initial_memory →
      (run_performance_test cap pk msk msg r s).1.decryption.memory_kb = 0) := by
  simp only [run_performance_test]
  refine ⟨by linarith, by linarith, le_max_left 0 _, le_max_left 0 _, ?_, ?_⟩
  · intro h
    exact max_eq_left (by linarith)
  · intro h
    exact max_eq_left (by linarith)

/-- C6 witness: the invariants at the trivial capability, concrete readings
whose memory delta is negative, and size 5. -/
theorem case_result_nonneg_invariants_witness :
    0 ≤ (run_performance_test unitCap () () () sampleTestReadings 5).1.encryption.time_seconds ∧
    0 ≤ (run_performance_test unitCap () () () sampleTestReadings 5).1.decryption.time_seconds ∧
    0 ≤ (run_performance_test unitCap () () () sampleTestReadings 5).1.encryption.memory_kb ∧
    0 ≤ (run_performance_test unitCap () () () sampleTestReadings 5).1.decryption.memory_kb ∧
    (sampleTestReadings.enc.final_memory < sampleTestReadings.enc.initial_memory →
      (run_performance_test unitCap () () () sampleTestReadings 5).1.encryption.memory_kb = 0) ∧
    (sampleTestReadings.dec.final_memory < sampleTestReadings.dec.initial_memory →
      (run_performance_test unitCap () () () sampleTestReadings 5).1.decryption.memory_kb = 0) :=
  case_result_nonneg_invariants unitCap () () () sampleTestReadings 5 (by norm_num)
    (by norm_num [sampleTestReadings, sampleReadings])
    (by norm_num [sampleTestReadings, sampleReadings])

/-- C7: the column label is "{size}KB" below 1024, "{size/1024}MB" without a
decimal point when 1024 divides the size, and an MB value with exactly one
decimal digit otherwise; together with the spec's seven concrete examples. -/
theorem size_label_spec :
    (∀ s : Nat, 0 < s →
      (s < 1024 → size_label s = toString s ++ "KB") ∧
      (1024 ≤ s → s % 1024 = 0 → size_label s = toString (s / 1024) ++ "MB") ∧
      (1024 ≤ s → s % 1024 ≠ 0 → ∃ a b : Nat, b < 10 ∧
        size_label s = toString a ++ "." ++ toString b ++ "MB")) ∧
    size_label 1024 = "1MB" ∧ size_label 5120 = "5MB" ∧ size_label 7168 = "7MB" ∧
    size_label 10240 = "10MB" ∧ size_label 1536 = "1.5MB" ∧ size_label 1 = "1KB" ∧
    size_label 100 = "100KB" := by
  refine ⟨?_, by decide, by decide, by decide, by decide, by decide, by decide, by decide⟩
  intro s hs
  refine ⟨?_, ?_, ?_⟩
  · intro hlt
    simp [size_label, Nat.not_le.2 hlt]
  · intro hge hmod
    simp [size_label, hge, hmod]
  · intro hge hmod
    refine ⟨roundHalfEvenN (s * 10) 1024 / 10, roundHalfEvenN (s * 10) 1024 % 10,
      Nat.mod_lt _ (by norm_num), ?_⟩
    simp [size_label, hge, hmod]

/-- C7 witness: the sub-MB branch instantiated at size 3. -/
theorem size_label_spec_witness : size_label 3 = "3KB" :=
  (size_label_spec.1 3 (by norm_num)).1 (by norm_num)

/-- C8: the exported matrix is the header row ("ABE" then one column label
per case in input order) followed by exactly the seven metric rows of the
spec in their fixed order, every row holding one formatted cell per case. -/
theorem build_csv_data_shape (results : List CaseResult) (h : results ≠ []) :
    build_csv_data results = spec_report_matrix results ∧
    (build_csv_data results).length = 8 ∧
    ∀ row ∈ build_csv_data results, row.length = 1 + results.length := by
  refine ⟨?_, rfl, ?_⟩
  · simp [build_csv_data, spec_report_matrix, spec_metric_rows]
  · intro row hrow
    simp only [build_csv_data, List.mem_cons, List.not_mem_nil, or_false] at hrow
    rcases hrow with h1 | h1 | h1 | h1 | h1 | h1 | h1 | h1 <;> subst h1 <;>
      simp [List.length_map, Nat.add_comm]

/-- C8 witness: the matrix shape at a concrete one-case collection. -/
theorem build_csv_data_shape_witness :
    build_csv_data [sampleCase] = spec_report_matrix [sampleCase] ∧
    (build_csv_data [sampleCase]).length = 8 ∧
    ∀ row ∈ build_csv_data [sampleCase], row.length = 1 + [sampleCase].length :=
  build_csv_data_shape [sampleCase] (List.cons_ne_nil _ _)

/-- C9: the key-creation report value is the deterministic
81 + (size mod 15) milliseconds, always within [81, 95], depends on the
payload size only, and fills row 1 of the matrix. -/
theorem key_creation_time_spec :
    (∀ kb : Nat, key_creation_time_ms kb = 81 + kb % 15 ∧
      81 ≤ key_creation_time_ms kb ∧ key_creation_time_ms kb ≤ 95) ∧
    (∀ r1 r2 : CaseResult, r1.data_size_kb = r2.data_size_kb →
      key_time_cell r1 = key_time_cell r2) ∧
    (∀ results : List CaseResult,
      (build_csv_data results)[1]? =
        some ("Key Creation Time" :: results.map key_time_cell)) := by
  refine ⟨?_, ?_, ?_⟩
  · intro kb
    have h : kb % 15 < 15 := Nat.mod_lt _ (by norm_num)
    unfold key_creation_time_ms
    omega
  · intro r1 r2 h
    simp [key_time_cell, h]
  · intro results
    rfl

/-- C9 witness: two cases of equal size 5 but different measurements get the
same key-creation cell. -/
theorem key_creation_time_spec_witness :
    key_time_cell ⟨5, sampleOp, sampleOp, true⟩ =
      key_time_cell ⟨5, ⟨1, 2, 3⟩, ⟨4, 5, 6⟩, false⟩ :=
  key_creation_time_spec.2.1 ⟨5, sampleOp, sampleOp, true⟩
    ⟨5, ⟨1, 2, 3⟩, ⟨4, 5, 6⟩, false⟩ rfl

/-- C10: the produced success flag is true exactly when the decrypt call's
value equals the random value fed to encrypt. -/
theorem success_iff_roundtrip {PK MSK GT Ctxt Key : Type} [DecidableEq GT]
    (cap : Capability PK MSK GT Ctxt Key) (pk : PK) (msk : MSK) (msg : GT)
    (r : TestReadings) (s : Nat) :
    (run_performance_test cap pk msk msg r s).1.success = true ↔
      cap.decrypt pk (cap.encrypt pk msg policy_str) (cap.keygen pk msk attr_list) = msg := by
  simp [run_performance_test]

end ABEBench
